import Mathlib

/-!
Verification of the metrics aggregation engine and trajectory pipeline of the
revistaslatam repository. The Python sources are embedded shallowly: DataFrame
columns become fields of explicit record types, chunked parquet scans become
lists of row batches, and floating-point numbers are modelled as exact
rationals (the floating-point claims below are stated up to this idealisation,
which is the tolerance the spec itself allows).
-/

/-- Python round-half-to-even on a rational number: the semantics of the
built-in round applied to an exact decimal value. -/
def roundHalfEven (x : ℚ) : ℤ :=
  let f : ℤ := ⌊x⌋
  let r : ℚ := x - f
  if r < 1/2 then f
  else if 1/2 < r then f + 1
  else if f % 2 = 0 then f else f + 1

/-- Python round(x, d) for rationals: round half-to-even at d decimal digits. -/
def round_to (d : ℕ) (x : ℚ) : ℚ :=
  (roundHalfEven (x * 10 ^ d) : ℚ) / 10 ^ d

/-- One cell of a loosely typed numeric column of the article table: a numeric
value, a non-numeric string, or a missing value (NaN/None in pandas). -/
inductive Cell where
  | num (q : ℚ)
  | str (s : String)
  | missing
deriving DecidableEq

/-- Embedding of pandas to_numeric with coerce errors: numeric cells survive,
non-numeric strings and missing values become missing (NaN). -/
def Cell.to_numeric : Cell → Option ℚ
  | .num q => some q
  | _ => none

/-- One row of the article (works) table as seen by the metric computations,
after ingestion has extracted oa_status and publication_year. Boolean flag
columns are nullable; fillna supplies their defaults at use sites. -/
structure Work where
  journal_id : String
  publication_year : ℤ
  fwci : Cell
  citation_normalized_percentile : Cell
  is_in_top_10_percent : Option Bool
  is_in_top_1_percent : Option Bool
  oa_status : String
deriving DecidableEq

/-- One row of the venue (journals) table. The indexing flags are optional
columns, read through safe_get with default False. -/
structure Journal where
  id : String
  country_code : String
  is_indexed_in_scopus : Option Bool
  is_core : Option Bool
  is_in_doaj : Option Bool
deriving DecidableEq

/-- The summary-metrics record produced by MetricsAccumulator.get_metrics and
by calculate_performance_metrics_from_df in pipeline/transform_metrics.py. -/
structure Metrics where
  num_documents : ℕ
  fwci_avg : ℚ
  pct_top_10 : ℚ
  pct_top_1 : ℚ
  avg_percentile : ℚ
  pct_oa_gold : ℚ
  pct_oa_diamond : ℚ
  pct_oa_green : ℚ
  pct_oa_hybrid : ℚ
  pct_oa_bronze : ℚ
  pct_oa_closed : ℚ
deriving DecidableEq

/-- The all-zero record that both implementations return for an empty document
set (the literal zero dict in the sources). -/
def Metrics.zero : Metrics := ⟨0, 0, 0, 0, 0, 0, 0, 0, 0, 0, 0⟩

namespace PerformanceMetrics

/-- Running state of MetricsAccumulator in src/performance_metrics.py: count,
FWCI and percentile sums, top-cited counts, and one counter per OA status of
the fixed vocabulary (the oa_counts dict). -/
structure MetricsAccumulator where
  count : ℕ
  fwci_sum : ℚ
  percentile_sum : ℚ
  top_10_count : ℕ
  top_1_count : ℕ
  oa_gold : ℕ
  oa_diamond : ℕ
  oa_green : ℕ
  oa_hybrid : ℕ
  oa_bronze : ℕ
  oa_closed : ℕ
deriving DecidableEq

/-- State established by MetricsAccumulator.reset, also the freshly constructed
state. -/
def MetricsAccumulator.reset : MetricsAccumulator := ⟨0, 0, 0, 0, 0, 0, 0, 0, 0, 0, 0⟩

/-- MetricsAccumulator.add_batch: fold one batch of works into the state.
Numeric columns go through to_numeric and fillna(0); the boolean flags through
fillna(False); oa_status is tallied per status via value_counts, statuses
outside the fixed vocabulary being ignored. -/
def MetricsAccumulator.add_batch (acc : MetricsAccumulator) (df_chunk : List Work) :
    MetricsAccumulator where
  count := acc.count + df_chunk.length
  fwci_sum := acc.fwci_sum + (df_chunk.map (fun w => w.fwci.to_numeric.getD 0)).sum
  percentile_sum := acc.percentile_sum +
    (df_chunk.map (fun w => w.citation_normalized_percentile.to_numeric.getD 0)).sum
  top_10_count := acc.top_10_count + df_chunk.countP (fun w => w.is_in_top_10_percent.getD false)
  top_1_count := acc.top_1_count + df_chunk.countP (fun w => w.is_in_top_1_percent.getD false)
  oa_gold := acc.oa_gold + df_chunk.countP (fun w => w.oa_status == "gold")
  oa_diamond := acc.oa_diamond + df_chunk.countP (fun w => w.oa_status == "diamond")
  oa_green := acc.oa_green + df_chunk.countP (fun w => w.oa_status == "green")
  oa_hybrid := acc.oa_hybrid + df_chunk.countP (fun w => w.oa_status == "hybrid")
  oa_bronze := acc.oa_bronze + df_chunk.countP (fun w => w.oa_status == "bronze")
  oa_closed := acc.oa_closed + df_chunk.countP (fun w => w.oa_status == "closed")

/-- MetricsAccumulator.get_metrics: the final record. Every derived field is 0
when count = 0; otherwise the accumulated sums are divided by count and rounded
to 2 decimals. -/
def MetricsAccumulator.get_metrics (acc : MetricsAccumulator) : Metrics :=
  if acc.count = 0 then Metrics.zero
  else
    { num_documents := acc.count
      fwci_avg := round_to 2 (acc.fwci_sum / acc.count)
      pct_top_10 := round_to 2 ((acc.top_10_count : ℚ) / acc.count * 100)
      pct_top_1 := round_to 2 ((acc.top_1_count : ℚ) / acc.count * 100)
      avg_percentile := round_to 2 (acc.percentile_sum / acc.count)
      pct_oa_gold := round_to 2 ((acc.oa_gold : ℚ) / acc.count * 100)
      pct_oa_diamond := round_to 2 ((acc.oa_diamond : ℚ) / acc.count * 100)
      pct_oa_green := round_to 2 ((acc.oa_green : ℚ) / acc.count * 100)
      pct_oa_hybrid := round_to 2 ((acc.oa_hybrid : ℚ) / acc.count * 100)
      pct_oa_bronze := round_to 2 ((acc.oa_bronze : ℚ) / acc.count * 100)
      pct_oa_closed := round_to 2 ((acc.oa_closed : ℚ) / acc.count * 100) }

/-- process_works_in_chunks: stream the works table batch by batch, filter each
batch, fold nonempty filtered batches into a fresh accumulator, and finally
materialize the metrics. The chunks argument is the batched table, as produced
by iter_batches. -/
def process_works_in_chunks (chunks : List (List Work)) (filter_func : Work → Bool) : Metrics :=
  (chunks.foldl
    (fun acc batch =>
      let df_chunk := batch.filter filter_func
      if 0 < df_chunk.length then acc.add_batch df_chunk else acc)
    MetricsAccumulator.reset).get_metrics

end PerformanceMetrics

namespace TransformMetrics

/-- calculate_performance_metrics_from_df in pipeline/transform_metrics.py:
the in-memory variant. Empty frame yields the zero record; otherwise numeric
columns are coerced with to_numeric and fillna(0) and the sums are divided by
the total row count, rounded to 6 decimals. All ArticleRecord columns are
present in the embedded table, so the missing-column branches are not taken. -/
def calculate_performance_metrics_from_df (works_df : List Work) : Metrics :=
  if works_df.length = 0 then Metrics.zero
  else
    let num_documents := works_df.length
    { num_documents := num_documents
      fwci_avg :=
        round_to 6 ((works_df.map (fun w => w.fwci.to_numeric.getD 0)).sum / num_documents)
      pct_top_10 :=
        round_to 6 ((works_df.countP (fun w => w.is_in_top_10_percent.getD false) : ℚ)
          / num_documents * 100)
      pct_top_1 :=
        round_to 6 ((works_df.countP (fun w => w.is_in_top_1_percent.getD false) : ℚ)
          / num_documents * 100)
      avg_percentile :=
        round_to 6
          ((works_df.map (fun w => w.citation_normalized_percentile.to_numeric.getD 0)).sum
            / num_documents)
      pct_oa_gold :=
        round_to 6 ((works_df.countP (fun w => w.oa_status == "gold") : ℚ) / num_documents * 100)
      pct_oa_diamond :=
        round_to 6 ((works_df.countP (fun w => w.oa_status == "diamond") : ℚ)
          / num_documents * 100)
      pct_oa_green :=
        round_to 6 ((works_df.countP (fun w => w.oa_status == "green") : ℚ) / num_documents * 100)
      pct_oa_hybrid :=
        round_to 6 ((works_df.countP (fun w => w.oa_status == "hybrid") : ℚ)
          / num_documents * 100)
      pct_oa_bronze :=
        round_to 6 ((works_df.countP (fun w => w.oa_status == "bronze") : ℚ)
          / num_documents * 100)
      pct_oa_closed :=
        round_to 6 ((works_df.countP (fun w => w.oa_status == "closed") : ℚ)
          / num_documents * 100) }

end TransformMetrics

namespace OptimizedScript

/-- The metrics dict built by calculate_performance_metrics_from_df in
precompute_metrics_parallel_optimized.py. Unlike the other two paths, this
dict has no pct_oa_diamond key at all. -/
structure MetricsOpt where
  num_documents : ℕ
  fwci_avg : ℚ
  pct_top_10 : ℚ
  pct_top_1 : ℚ
  avg_percentile : ℚ
  pct_oa_gold : ℚ
  pct_oa_green : ℚ
  pct_oa_hybrid : ℚ
  pct_oa_bronze : ℚ
  pct_oa_closed : ℚ
deriving DecidableEq

/-- The zero dict of the optimized script for an empty frame. -/
def MetricsOpt.zero : MetricsOpt := ⟨0, 0, 0, 0, 0, 0, 0, 0, 0, 0⟩

/-- calculate_performance_metrics_from_df in
precompute_metrics_parallel_optimized.py. FWCI and percentile are computed
with Series.mean after to_numeric WITHOUT fillna(0): pandas mean skips NaN, so
the average runs over the present numeric values only, and the notna guard
maps an all-missing column (NaN mean) to 0.0. The count-based percentages use
the total row count as in the other paths. -/
def calculate_performance_metrics_from_df (works_df : List Work) : MetricsOpt :=
  if works_df.length = 0 then MetricsOpt.zero
  else
    let num_documents := works_df.length
    let fwci_present := works_df.filterMap (fun w => w.fwci.to_numeric)
    let pctl_present := works_df.filterMap (fun w => w.citation_normalized_percentile.to_numeric)
    { num_documents := num_documents
      fwci_avg :=
        if fwci_present.length = 0 then 0
        else round_to 2 (fwci_present.sum / fwci_present.length)
      pct_top_10 :=
        round_to 2 ((works_df.countP (fun w => w.is_in_top_10_percent.getD false) : ℚ)
          / num_documents * 100)
      pct_top_1 :=
        round_to 2 ((works_df.countP (fun w => w.is_in_top_1_percent.getD false) : ℚ)
          / num_documents * 100)
      avg_percentile :=
        if pctl_present.length = 0 then 0
        else round_to 2 (pctl_present.sum / pctl_present.length)
      pct_oa_gold :=
        round_to 2 ((works_df.countP (fun w => w.oa_status == "gold") : ℚ) / num_documents * 100)
      pct_oa_green :=
        round_to 2 ((works_df.countP (fun w => w.oa_status == "green") : ℚ) / num_documents * 100)
      pct_oa_hybrid :=
        round_to 2 ((works_df.countP (fun w => w.oa_status == "hybrid") : ℚ)
          / num_documents * 100)
      pct_oa_bronze :=
        round_to 2 ((works_df.countP (fun w => w.oa_status == "bronze") : ℚ)
          / num_documents * 100)
      pct_oa_closed :=
        round_to 2 ((works_df.countP (fun w => w.oa_status == "closed") : ℚ)
          / num_documents * 100) }

end OptimizedScript

/-- Python range(start_year, end_year + 1) over integer years. -/
def yearsIn (start_year end_year : ℤ) : List ℤ :=
  (List.range (end_year + 1 - start_year).toNat).map (fun i => start_year + i)

/-- Format string of the period label, f-string sy-ey in the sources. -/
def periodLabel (start_year end_year : ℤ) : String :=
  toString start_year ++ "-" ++ toString end_year

/-- Consecutive chunks of a fixed size, the range-based slicing loop of
process_in_chunks. The sources clamp the size with max so it is never zero; a
zero size is mapped to a single chunk only for totality. -/
def chunkList (chunk_size : ℕ) (items : List α) : List (List α) :=
  if h : chunk_size = 0 ∨ items.isEmpty then
    if items.isEmpty then [] else [items]
  else
    items.take chunk_size :: chunkList chunk_size (items.drop chunk_size)
termination_by items.length
decreasing_by
  simp only [not_or, List.isEmpty_iff] at h
  rcases h with ⟨h1, h2⟩
  have hlen : 0 < items.length := List.length_pos.mpr h2
  simp only [List.length_drop]
  omega

/-- get_items_to_process in pipeline/transform_metrics.py: all items when
force is set or no cached table exists, otherwise the items absent from the
cached key column. The id_column access is embedded as a key projection. -/
def get_items_to_process [DecidableEq α] (all_items : List α) (existing_df : Option (List β))
    (id_of : β → α) (force : Bool) : List α × Option (List β) :=
  match force, existing_df with
  | true, _ => (all_items, existing_df)
  | false, none => (all_items, existing_df)
  | false, some rows =>
    let existing_ids := rows.map id_of
    (all_items.filter (fun item => item ∉ existing_ids), existing_df)


/-- The journal_metrics dict attached to country, region and LATAM period
rows: venue count and indexing percentages. -/
structure IndexingMetrics where
  num_journals : ℕ
  pct_scopus : ℚ
  pct_core : ℚ
  pct_doaj : ℚ
deriving DecidableEq

/-- One row of a country-level annual metrics table. -/
structure CountryAnnualRow where
  metrics : Metrics
  year : ℤ
  country_code : String
deriving DecidableEq

/-- One row of a country-level period metrics table. -/
structure CountryPeriodRow where
  metrics : Metrics
  indexing : IndexingMetrics
  country_code : String
  period : String
deriving DecidableEq

/-- One row of the journal-level annual metrics table. -/
structure JournalAnnualRow where
  metrics : Metrics
  year : ℤ
  journal_id : String
  is_scopus : Bool
  is_core : Bool
  is_doaj : Bool
deriving DecidableEq

/-- One row of a journal-level period metrics table. -/
structure JournalPeriodRow where
  metrics : Metrics
  journal_id : String
  period : String
  is_scopus : Bool
  is_core : Bool
  is_doaj : Bool
deriving DecidableEq

/-- The journal_metrics dict computed for countries, the region and LATAM:
venue count and percentage of venues carrying each indexing flag. The decimals
argument is 2 in src/performance_metrics.py and 6 in the pipeline scripts. -/
def journal_indexing_metrics (decimals : ℕ) (country_journals : List Journal) :
    IndexingMetrics :=
  let num_journals := country_journals.length
  { num_journals := num_journals
    pct_scopus := round_to decimals
      ((country_journals.countP (fun j => j.is_indexed_in_scopus.getD false) : ℚ)
        / num_journals * 100)
    pct_core := round_to decimals
      ((country_journals.countP (fun j => j.is_core.getD false) : ℚ) / num_journals * 100)
    pct_doaj := round_to decimals
      ((country_journals.countP (fun j => j.is_in_doaj.getD false) : ℚ) / num_journals * 100) }

namespace PerformanceMetrics

/-- calculate_country_metrics_chunked in src/performance_metrics.py: returns
None (the all-None tuple) when the country has no journals in the venue table;
otherwise one metrics row per year of the range, a period row over the full
range (labelled 2021-2025 by the source) and the journal-indexing block. -/
def calculate_country_metrics_chunked (chunks : List (List Work)) (journals_df : List Journal)
    (country_code : String) (start_year end_year : ℤ) :
    Option (List CountryAnnualRow × CountryPeriodRow × IndexingMetrics) :=
  let country_journals := journals_df.filter (fun j => j.country_code == country_code)
  if country_journals.length = 0 then none
  else
    let journal_ids := country_journals.map (fun j => j.id)
    let journal_metrics := journal_indexing_metrics 2 country_journals
    let annual_data := (yearsIn start_year end_year).map (fun year =>
      ({ metrics := process_works_in_chunks chunks
            (fun w => journal_ids.contains w.journal_id && w.publication_year == year)
         year := year
         country_code := country_code } : CountryAnnualRow))
    let period_metrics := process_works_in_chunks chunks
      (fun w => journal_ids.contains w.journal_id &&
        decide (start_year ≤ w.publication_year) && decide (w.publication_year ≤ end_year))
    some (annual_data,
      { metrics := period_metrics
        indexing := journal_metrics
        country_code := country_code
        period := "2021-2025" },
      journal_metrics)

end PerformanceMetrics

namespace TransformMetrics

/-- process_country_worker in pipeline/transform_metrics.py: the all-None
4-tuple (embedded as none) when the country has no matching works, otherwise
the country code, one row per year, a full-range period row and the 2021-2025
recent-period row. A country with journals but no works also yields none. -/
def process_country_worker (works_df : List Work) (journals_df : List Journal)
    (start_year end_year : ℤ) (country_code : String) :
    Option (String × List CountryAnnualRow × CountryPeriodRow × CountryPeriodRow) :=
  let country_journals := journals_df.filter (fun j => j.country_code == country_code)
  let journal_ids := country_journals.map (fun j => j.id)
  let country_works := works_df.filter (fun w => journal_ids.contains w.journal_id)
  if country_works.length = 0 then none
  else
    let journal_metrics := journal_indexing_metrics 6 country_journals
    let annual_data := (yearsIn start_year end_year).map (fun year =>
      ({ metrics := calculate_performance_metrics_from_df
            (country_works.filter (fun w => w.publication_year == year))
         year := year
         country_code := country_code } : CountryAnnualRow))
    let period_metrics := calculate_performance_metrics_from_df
      (country_works.filter (fun w =>
        decide (start_year ≤ w.publication_year) && decide (w.publication_year ≤ end_year)))
    let period_recent_metrics := calculate_performance_metrics_from_df
      (country_works.filter (fun w =>
        decide ((2021 : ℤ) ≤ w.publication_year) && decide (w.publication_year ≤ (2025 : ℤ))))
    some (country_code,
      annual_data,
      { metrics := period_metrics
        indexing := journal_metrics
        country_code := country_code
        period := periodLabel start_year end_year },
      { metrics := period_recent_metrics
        indexing := journal_metrics
        country_code := country_code
        period := "2021-2025" })

/-- process_journal_worker in pipeline/transform_metrics.py: none when the
journal is unknown to the venue table or has no works; otherwise the journal
id, one row per year, the full-range period row and the 2021-2025 row, each
carrying the indexing flags of the venue. -/
def process_journal_worker (works_df : List Work) (journals_df : List Journal)
    (start_year end_year : ℤ) (journal_id : String) :
    Option (String × List JournalAnnualRow × JournalPeriodRow × JournalPeriodRow) :=
  match journals_df.filter (fun j => j.id == journal_id) with
  | [] => none
  | journal_info :: _ =>
    let is_scopus := journal_info.is_indexed_in_scopus.getD false
    let is_core := journal_info.is_core.getD false
    let is_doaj := journal_info.is_in_doaj.getD false
    let journal_works := works_df.filter (fun w => w.journal_id == journal_id)
    if journal_works.length = 0 then none
    else
      let annual_data := (yearsIn start_year end_year).map (fun year =>
        ({ metrics := calculate_performance_metrics_from_df
              (journal_works.filter (fun w => w.publication_year == year))
           year := year
           journal_id := journal_id
           is_scopus := is_scopus
           is_core := is_core
           is_doaj := is_doaj } : JournalAnnualRow))
      let period_metrics := calculate_performance_metrics_from_df
        (journal_works.filter (fun w =>
          decide (start_year ≤ w.publication_year) && decide (w.publication_year ≤ end_year)))
      let period_recent_metrics := calculate_performance_metrics_from_df
        (journal_works.filter (fun w =>
          decide ((2021 : ℤ) ≤ w.publication_year) && decide (w.publication_year ≤ (2025 : ℤ))))
      some (journal_id,
        annual_data,
        { metrics := period_metrics
          journal_id := journal_id
          period := periodLabel start_year end_year
          is_scopus := is_scopus
          is_core := is_core
          is_doaj := is_doaj },
        { metrics := period_recent_metrics
          journal_id := journal_id
          period := "2021-2025"
          is_scopus := is_scopus
          is_core := is_core
          is_doaj := is_doaj })

end TransformMetrics

namespace TransformMetrics

/-- Cache tables on disk, one optional table per (level, scope kind); none
models a missing parquet file. -/
structure Caches where
  latam_annual : Option (List (Metrics × ℤ))
  latam_period : Option (List (Metrics × IndexingMetrics × String))
  latam_period_recent : Option (List (Metrics × IndexingMetrics × String))
  country_annual : Option (List CountryAnnualRow)
  country_period : Option (List CountryPeriodRow)
  country_period_recent : Option (List CountryPeriodRow)
  journal_annual : Option (List JournalAnnualRow)
  journal_period : Option (List JournalPeriodRow)
  journal_period_recent : Option (List JournalPeriodRow)
deriving DecidableEq

/-- Fresh cache directory with no tables. -/
def Caches.empty : Caches := ⟨none, none, none, none, none, none, none, none, none⟩

/-- process_in_chunks in pipeline/transform_metrics.py: slice the item list
into chunks and run the worker over each chunk through a pool, concatenating
all results. Pool.map re-raises the first worker exception in the parent, and
the body of process_in_chunks has no handler, so one raising worker aborts
the whole call; the Except monad short-circuit embeds exactly that. -/
def process_in_chunks (items : List α) (worker_func : α → Except String β)
    (chunk_size : ℕ) : Except String (List β) :=
  (chunkList chunk_size items).foldlM
    (fun all_results chunk => do
      let results ← chunk.mapM worker_func
      pure (all_results ++ results))
    []

/-- Python values flowing through the journal worker result tuples of main:
None, a string id, an annual DataFrame, or a period metrics dict. -/
inductive PyVal where
  | pynone
  | pystr (s : String)
  | pydf (rows : List JournalAnnualRow)
  | pydict (row : JournalPeriodRow)
deriving DecidableEq

/-- Python tuples are embedded as lists of PyVal. Tuple unpacking into three
targets succeeds exactly on arity 3 and otherwise raises ValueError, which is
the semantics of the statement for annual, period, period_recent in results. -/
def unpackInto3 (t : List PyVal) : Except String (PyVal × PyVal × PyVal) :=
  match t with
  | [a, b, c] => .ok (a, b, c)
  | _ => .error "ValueError: too many values to unpack (expected 3)"

/-- The tuple value actually returned by process_journal_worker: both return
paths of the source produce an arity-4 tuple. -/
def journalWorkerTuple
    (res : Option (String × List JournalAnnualRow × JournalPeriodRow × JournalPeriodRow)) :
    List PyVal :=
  match res with
  | none => [.pynone, .pynone, .pynone, .pynone]
  | some (jid, annual, period, period_recent) =>
    [.pystr jid, .pydf annual, .pydict period, .pydict period_recent]

/-- The journal result-collection loop of main: unpack each worker tuple into
three targets, then append the non-None parts to the three lists. The loop
raises on the first tuple whose arity is not 3. -/
def collect_journal_results (results : List (List PyVal)) :
    Except String
      (List (List JournalAnnualRow) × List JournalPeriodRow × List JournalPeriodRow) :=
  results.foldlM
    (fun acc r => do
      let (annual, period, period_recent) ← unpackInto3 r
      let annual_list := match annual with
        | .pydf rows => if 0 < rows.length then acc.1 ++ [rows] else acc.1
        | _ => acc.1
      let period_list := match period with
        | .pydict row => acc.2.1 ++ [row]
        | _ => acc.2.1
      let recent_list := match period_recent with
        | .pydict row => acc.2.2 ++ [row]
        | _ => acc.2.2
      pure (annual_list, period_list, recent_list))
    ([], [], [])

/-- The country result-collection loop of main: here the unpacking arity
matches the worker tuples (four targets), and the non-None parts are
appended. -/
def collect_country_results
    (results :
      List (Option (String × List CountryAnnualRow × CountryPeriodRow × CountryPeriodRow))) :
    List (List CountryAnnualRow) × List CountryPeriodRow × List CountryPeriodRow :=
  results.foldl
    (fun acc r =>
      match r with
      | none => acc
      | some (_, annual, period, period_recent) =>
        (acc.1 ++ [annual], acc.2.1 ++ [period], acc.2.2 ++ [period_recent]))
    ([], [], [])

/-- Incremental combine before a cache write: existing rows first, freshly
computed rows appended, unless force or no existing table. -/
def combine_with_existing (force : Bool) (existing : Option (List α)) (new_rows : List α) :
    List α :=
  match force, existing with
  | false, some old => old ++ new_rows
  | _, _ => new_rows

/-- The LATAM section of main: recomputed and rewritten unconditionally on
every run, with no incremental check. An empty venue table raises
ZeroDivisionError in the indexing percentages. -/
def latam_stage (works_df : List Work) (journals_df : List Journal)
    (start_year end_year : ℤ) (disk : Caches) : Caches × Except String Unit :=
  if journals_df.length = 0 then (disk, .error "ZeroDivisionError: division by zero")
  else
    let journal_metrics := journal_indexing_metrics 6 journals_df
    let latam_annual := (yearsIn start_year end_year).map (fun year =>
      (calculate_performance_metrics_from_df
        (works_df.filter (fun w => w.publication_year == year)), year))
    let period := calculate_performance_metrics_from_df
      (works_df.filter (fun w =>
        decide (start_year ≤ w.publication_year) && decide (w.publication_year ≤ end_year)))
    let recent := calculate_performance_metrics_from_df
      (works_df.filter (fun w =>
        decide ((2021 : ℤ) ≤ w.publication_year) && decide (w.publication_year ≤ (2025 : ℤ))))
    ({ disk with
        latam_annual := some latam_annual
        latam_period := some [(period, journal_metrics, periodLabel start_year end_year)]
        latam_period_recent := some [(recent, journal_metrics, "2021-2025")] },
      .ok ())

/-- The country-metrics section of main: select pending countries against the
period cache, run the workers chunked, collect the 4-tuples (matching arity),
combine each nonempty result list with the existing table and write it.
Returns the updated disk state and the number of countries selected for
computation this run, the count the run reports. -/
def country_stage (works_df : List Work) (journals_df : List Journal)
    (start_year end_year : ℤ) (force : Bool) (disk : Caches) : Caches × Except String ℕ :=
  let countries := ((journals_df.map (fun j => j.country_code)).dedup).mergeSort
    (fun a b => !(decide (b < a)))
  let countries_to_process :=
    (get_items_to_process countries disk.country_period (fun r => r.country_code) force).1
  if countries_to_process.length = 0 then (disk, .ok 0)
  else
    let chunk_size := max 1 (countries_to_process.length / 4)
    match process_in_chunks countries_to_process
        (fun c => .ok (process_country_worker works_df journals_df start_year end_year c))
        chunk_size with
    | .error e => (disk, .error e)
    | .ok results =>
      let (annual_list, period_list, recent_list) := collect_country_results results
      let disk1 := if 0 < annual_list.length then
          { disk with country_annual := some (combine_with_existing force disk.country_annual
              annual_list.flatten) }
        else disk
      let disk2 := if 0 < period_list.length then
          { disk1 with country_period := some (combine_with_existing force disk1.country_period
              period_list) }
        else disk1
      let disk3 := if 0 < recent_list.length then
          { disk2 with country_period_recent := some (combine_with_existing force
              disk2.country_period_recent recent_list) }
        else disk2
      (disk3, .ok countries_to_process.length)

/-- The journal-metrics section of main: select pending journals against the
period cache, run the workers chunked, then run the result-collection loop,
whose three-target unpacking is applied to the arity-4 worker tuples; the
cache writes would only happen after a successful collection. -/
def journal_stage (works_df : List Work) (journals_df : List Journal)
    (start_year end_year : ℤ) (force : Bool) (disk : Caches) : Caches × Except String ℕ :=
  let journal_ids := (journals_df.map (fun j => j.id)).dedup
  let journals_to_process :=
    (get_items_to_process journal_ids disk.journal_period (fun r => r.journal_id) force).1
  if journals_to_process.length = 0 then (disk, .ok 0)
  else
    let chunk_size := max 10 (journals_to_process.length / 20)
    match process_in_chunks journals_to_process
        (fun j => .ok (journalWorkerTuple
          (process_journal_worker works_df journals_df start_year end_year j)))
        chunk_size with
    | .error e => (disk, .error e)
    | .ok results =>
      match collect_journal_results results with
      | .error e => (disk, .error e)
      | .ok (annual_list, period_list, recent_list) =>
        let disk1 := if 0 < annual_list.length then
            { disk with journal_annual := some (combine_with_existing force disk.journal_annual
                annual_list.flatten) }
          else disk
        let disk2 := if 0 < period_list.length then
            { disk1 with journal_period := some (combine_with_existing force disk1.journal_period
                period_list) }
          else disk1
        let disk3 := if 0 < recent_list.length then
            { disk2 with journal_period_recent := some (combine_with_existing force
                disk2.journal_period_recent recent_list) }
          else disk2
        (disk3, .ok journals_to_process.length)

/-- Per-level counts the run reports: countries and journals newly selected
for computation this run. -/
structure Report where
  countries_pending : ℕ
  journals_pending : ℕ
deriving DecidableEq

/-- The main driver of pipeline/transform_metrics.py over already loaded
tables: detect the year range as int of min and max publication year (raising
on an empty works table), then run the LATAM, country and journal sections in
order. Each section writes its tables before the next starts, so a raise in a
later section keeps everything written earlier; the raise itself propagates
out of main uncaught. -/
def main_run (works_df : List Work) (journals_df : List Journal) (force : Bool)
    (disk : Caches) : Caches × Except String Report :=
  match (works_df.map (fun w => w.publication_year)).min?,
      (works_df.map (fun w => w.publication_year)).max? with
  | some start_year, some end_year =>
    (match latam_stage works_df journals_df start_year end_year disk with
    | (disk1, .error e) => (disk1, .error e)
    | (disk1, .ok ()) =>
      match country_stage works_df journals_df start_year end_year force disk1 with
      | (disk2, .error e) => (disk2, .error e)
      | (disk2, .ok countries_pending) =>
        match journal_stage works_df journals_df start_year end_year force disk2 with
        | (disk3, .error e) => (disk3, .error e)
        | (disk3, .ok journals_pending) =>
          (disk3, .ok ⟨countries_pending, journals_pending⟩))
  | _, _ => (disk, .error "ValueError: cannot convert float NaN to integer")

end TransformMetrics

namespace CountryScript

/-- The per-country loop of main in precompute_country_metrics.py: each
country computation runs inside try/except, a raising country is logged and
skipped, the loop continues, and only the collected successes are saved. The
compute argument stands for calculate_country_metrics_chunked including any
exception it may raise. -/
def country_metrics_main_loop (countries : List String)
    (compute : String →
      Except String (Option (List CountryAnnualRow × CountryPeriodRow × IndexingMetrics))) :
    List (List CountryAnnualRow) × List CountryPeriodRow :=
  countries.foldl
    (fun acc country_code =>
      match compute country_code with
      | .error _ => acc
      | .ok none => acc
      | .ok (some (annual, period, _)) => (acc.1 ++ [annual], acc.2 ++ [period]))
    ([], [])

end CountryScript

namespace Trajectories

/-- One row of the combined annual table assembled by load_and_prep_data in
pipeline/process_trajectories.py: identity and map-context metadata plus the
five tracked metric columns (METRICS_COLS). -/
structure PrepRow where
  id : String
  name : String
  type : String
  year : ℤ
  country_code : String
  num_documents : ℚ
  fwci_avg : ℚ
  avg_percentile : ℚ
  pct_top_1 : ℚ
  pct_top_10 : ℚ
deriving DecidableEq

/-- Surviving index window of the pandas centered rolling aggregation of width
window_size at position i of a series of length n, truncated at the series
boundaries. With min_periods=1 a value is produced whenever this window is
nonempty, which holds at every i < n since i itself always qualifies. -/
def windowIdxs (window_size n i : ℕ) : List ℕ :=
  (List.range n).filter (fun j =>
    decide (i ≤ j + (window_size - 1) / 2) && decide (j ≤ i + window_size / 2))

/-- Centered rolling weighted mean over a series, one output value per input
position. The weight argument, indexed by position inside the window, covers
both branches of apply_smoothing: the exponential window of the scipy branch
and the constant weight of the plain-mean fallback, which differ only here. -/
def rollingCenteredMean (window_size : ℕ) (weight : ℕ → ℚ) (xs : List ℚ) : List ℚ :=
  (List.range xs.length).map (fun i =>
    let idxs := windowIdxs window_size xs.length i
    let wsum := (idxs.map (fun j => weight (j + (window_size - 1) / 2 - i))).sum
    let vsum := (idxs.map (fun j => weight (j + (window_size - 1) / 2 - i) * xs.getD j 0)).sum
    vsum / wsum)

/-- Per-group transform of apply_smoothing: each of the five metric columns of
one entity series is replaced by its rolling centered mean; row identity,
count and order are unchanged, only the metric values move. -/
def smoothGroup (window_size : ℕ) (weight : ℕ → ℚ) (rows : List PrepRow) : List PrepRow :=
  let nd := rollingCenteredMean window_size weight (rows.map (fun r => r.num_documents))
  let fa := rollingCenteredMean window_size weight (rows.map (fun r => r.fwci_avg))
  let ap := rollingCenteredMean window_size weight (rows.map (fun r => r.avg_percentile))
  let p1 := rollingCenteredMean window_size weight (rows.map (fun r => r.pct_top_1))
  let p10 := rollingCenteredMean window_size weight (rows.map (fun r => r.pct_top_10))
  rows.enum.map (fun p =>
    { p.2 with
      num_documents := nd.getD p.1 p.2.num_documents
      fwci_avg := fa.getD p.1 p.2.fwci_avg
      avg_percentile := ap.getD p.1 p.2.avg_percentile
      pct_top_1 := p1.getD p.1 p.2.pct_top_1
      pct_top_10 := p10.getD p.1 p.2.pct_top_10 })

/-- apply_smoothing in pipeline/process_trajectories.py: an empty frame is
returned as is; otherwise the frame is sorted by (group, year) and every
metric column is smoothed independently within each id group by the rolling
transform. Groups are contiguous after the sort; the group order of the
embedding follows the deduplicated id list, and row order inside a group is
the sorted order, as in the source. -/
def apply_smoothing (df : List PrepRow) (window_size : ℕ) (weight : ℕ → ℚ) : List PrepRow :=
  if df.isEmpty then df
  else
    let sorted := df.mergeSort (fun a b =>
      decide (a.id < b.id) || (a.id == b.id && decide (a.year ≤ b.year)))
    let ids := (sorted.map (fun r => r.id)).dedup
    (ids.map (fun g => smoothGroup window_size weight
      (sorted.filter (fun r => r.id == g)))).flatten

/-- The global-countries subset of the valid smoothed table: country and
region rows only. -/
def countries_data (valid_data : List PrepRow) : List PrepRow :=
  valid_data.filter (fun r => r.type == "country" || r.type == "region")

/-- Decision and neighbor count of the Global Countries Map section of main:
the projection runs only when the subset has strictly more than 10 points,
with n_neighbors = min 30 (points - 1); otherwise no coordinates are produced
for this map context. -/
def global_countries_map (valid_data : List PrepRow) : Option (List PrepRow × ℕ) :=
  let cd := countries_data valid_data
  if 10 < cd.length then some (cd, min 30 (cd.length - 1)) else none

/-- Decision and neighbor count of the per-country map loop of main: the
country subset (the journals of the country plus the country row itself,
selected by country_code) is skipped with continue when it has fewer than 10
points; otherwise n_neighbors = min 15 (points - 1), raised to 2 when below
2, and the projection runs over the subset. -/
def country_local_map (valid_data : List PrepRow) (country : String) :
    Option (List PrepRow × ℕ) :=
  let subset := valid_data.filter (fun r => r.country_code == country)
  if subset.length < 10 then none
  else
    let n0 := min 15 (subset.length - 1)
    some (subset, if n0 < 2 then 2 else n0)

end Trajectories

/-- Sample work with all values present, used by concrete witnesses. -/
def wGold : Work := ⟨"J1", 2020, .num 2, .num 50, some true, some false, "gold"⟩

/-- Sample work with missing FWCI and percentile cells. -/
def wMissing : Work := ⟨"J1", 2020, .missing, .missing, none, none, "closed"⟩

/-- Sample work of a second venue with a non-numeric percentile cell. -/
def wClosed : Work := ⟨"J2", 2021, .num (1/2), .str "n/a", some false, some false, "closed"⟩

/-- Sample venue of country AR. -/
def jAR : Journal := ⟨"J1", "AR", some true, some false, some true⟩

/-- Sample country-level trajectory row for the map-context witnesses. -/
def sampleCountryRow (i : ℕ) : Trajectories.PrepRow :=
  { id := "C" ++ toString i
    name := "C" ++ toString i
    type := "country"
    year := 2020
    country_code := "C" ++ toString i
    num_documents := 1
    fwci_avg := 1
    avg_percentile := 50
    pct_top_1 := 1
    pct_top_10 := 10 }

/-- Exactly ten country points: the boundary case of the global map. -/
def valid10 : List Trajectories.PrepRow := (List.range 10).map sampleCountryRow

/-- Sample journal-level trajectory row of country BR. -/
def sampleJournalRow (i : ℕ) : Trajectories.PrepRow :=
  { id := "R" ++ toString i
    name := "R" ++ toString i
    type := "journal"
    year := 2020
    country_code := "BR"
    num_documents := 1
    fwci_avg := 1
    avg_percentile := 50
    pct_top_1 := 1
    pct_top_10 := 10 }

/-- Eleven points sharing the country code BR: a large enough local map. -/
def validBR11 : List Trajectories.PrepRow := (List.range 11).map sampleJournalRow

namespace PerformanceMetrics

theorem add_batch_nil (acc : MetricsAccumulator) : acc.add_batch [] = acc := by
  simp [MetricsAccumulator.add_batch]

theorem add_batch_append (acc : MetricsAccumulator) (b1 b2 : List Work) :
    (acc.add_batch b1).add_batch b2 = acc.add_batch (b1 ++ b2) := by
  simp only [MetricsAccumulator.add_batch, List.map_append, List.sum_append,
    List.countP_append, List.length_append, MetricsAccumulator.mk.injEq]
  refine ⟨?_, ?_, ?_, ?_, ?_, ?_, ?_, ?_, ?_, ?_, ?_⟩ <;> ring

theorem foldl_add_batch (batches : List (List Work)) (acc : MetricsAccumulator) :
    batches.foldl MetricsAccumulator.add_batch acc = acc.add_batch batches.flatten := by
  induction batches generalizing acc with
  | nil => simp [add_batch_nil]
  | cons b bs ih => simp [List.foldl_cons, ih, add_batch_append]

end PerformanceMetrics

/-- C4: for every article subset and every partition of it into batches,
folding each batch into the accumulator with add_batch and then finalizing
with get_metrics yields exactly the same MetricsRecord as accumulating the
whole subset in one batch (exact equality over the rational embedding, hence
within any floating-point tolerance). -/
theorem accumulate_batches_eq_single_batch (subset : List Work) (batches : List (List Work))
    (h : batches.flatten = subset) :
    (batches.foldl PerformanceMetrics.MetricsAccumulator.add_batch
        PerformanceMetrics.MetricsAccumulator.reset).get_metrics
      = (PerformanceMetrics.MetricsAccumulator.reset.add_batch subset).get_metrics := by
  rw [PerformanceMetrics.foldl_add_batch, h]

theorem accumulate_batches_eq_single_batch_witness :
    ([[wGold], [wMissing, wClosed]] : List (List Work)).flatten = [wGold, wMissing, wClosed]
    ∧ (([[wGold], [wMissing, wClosed]] : List (List Work)).foldl
          PerformanceMetrics.MetricsAccumulator.add_batch
          PerformanceMetrics.MetricsAccumulator.reset).get_metrics
        = (PerformanceMetrics.MetricsAccumulator.reset.add_batch
            [wGold, wMissing, wClosed]).get_metrics :=
  ⟨rfl, accumulate_batches_eq_single_batch [wGold, wMissing, wClosed]
    [[wGold], [wMissing, wClosed]] rfl⟩

theorem get_items_to_process_mem [DecidableEq α] (all_items : List α) (rows : List β)
    (id_of : β → α) (item : α) :
    item ∈ (get_items_to_process all_items (some rows) id_of false).1 ↔
      item ∈ all_items ∧ item ∉ rows.map id_of := by
  simp [get_items_to_process, List.mem_filter]

/-- C5: get_items_to_process returns all keys when force is set or no cached
table exists, and otherwise exactly the keys absent from the cached key
column; in particular a key present in the cached table is excluded on a
non-forced run and included when force is set. -/
theorem get_items_to_process_contract [DecidableEq α] (all_items : List α)
    (existing_df : Option (List β)) (id_of : β → α) (force : Bool) (item : α) :
    ((force = true ∨ existing_df = none) →
      (get_items_to_process all_items existing_df id_of force).1 = all_items)
    ∧ (∀ rows, force = false → existing_df = some rows →
        (item ∈ (get_items_to_process all_items existing_df id_of force).1 ↔
          item ∈ all_items ∧ item ∉ rows.map id_of)) := by
  constructor
  · rintro (hf | he)
    · subst hf; cases existing_df <;> rfl
    · subst he; cases force <;> rfl
  · intro rows hf he
    subst hf
    subst he
    exact get_items_to_process_mem all_items rows id_of item

theorem get_items_to_process_contract_witness :
    ("BR" ∈ (get_items_to_process ["AR", "BR"] (some ["AR"]) (fun s : String => s) false).1
        ↔ ("BR" ∈ ["AR", "BR"] ∧ "BR" ∉ ["AR"].map (fun s : String => s)))
    ∧ ("AR" ∈ (get_items_to_process ["AR", "BR"] (some ["AR"]) (fun s : String => s) false).1
        ↔ ("AR" ∈ ["AR", "BR"] ∧ "AR" ∉ ["AR"].map (fun s : String => s)))
    ∧ (get_items_to_process ["AR", "BR"] (some ["AR"]) (fun s : String => s) true).1
        = ["AR", "BR"] :=
  ⟨(get_items_to_process_contract ["AR", "BR"] (some ["AR"]) (fun s => s) false "BR").2
      ["AR"] rfl rfl,
   (get_items_to_process_contract ["AR", "BR"] (some ["AR"]) (fun s => s) false "AR").2
      ["AR"] rfl rfl,
   (get_items_to_process_contract ["AR", "BR"] (some ["AR"]) (fun s => s) true "AR").1
      (Or.inl rfl)⟩

theorem process_works_in_chunks_empty (chunks : List (List Work)) (f : Work → Bool)
    (h : chunks.flatten.filter f = []) :
    PerformanceMetrics.process_works_in_chunks chunks f = Metrics.zero := by
  have hacc : ∀ cs : List (List Work), cs.flatten.filter f = [] →
      cs.foldl (fun acc batch =>
          let df_chunk := batch.filter f
          if 0 < df_chunk.length then acc.add_batch df_chunk else acc)
        PerformanceMetrics.MetricsAccumulator.reset
        = PerformanceMetrics.MetricsAccumulator.reset := by
    intro cs
    induction cs with
    | nil => intro _; rfl
    | cons c cs2 ih =>
      intro hc
      rw [List.flatten_cons, List.filter_append] at hc
      obtain ⟨h1, h2⟩ := List.append_eq_nil.mp hc
      simp only [List.foldl_cons, h1, List.length_nil, lt_irrefl, if_neg (lt_irrefl 0)]
      exact ih h2
  unfold PerformanceMetrics.process_works_in_chunks
  rw [hacc chunks h]
  rfl

/-- C2: for every entity, year or period whose matching document set is
empty, the produced MetricsRecord has document count 0 and every derived
field (fwci_avg, avg_percentile, pct_top_10, pct_top_1 and each per-OA-status
percentage) exactly 0, never NaN or undefined, in both the streaming path and
the in-memory pipeline path. -/
theorem zero_document_record_is_all_zero (chunks : List (List Work)) (filter_func : Work → Bool)
    (h : chunks.flatten.filter filter_func = []) :
    PerformanceMetrics.process_works_in_chunks chunks filter_func = Metrics.zero
    ∧ TransformMetrics.calculate_performance_metrics_from_df [] = Metrics.zero
    ∧ Metrics.zero.num_documents = 0 ∧ Metrics.zero.fwci_avg = 0
    ∧ Metrics.zero.avg_percentile = 0 ∧ Metrics.zero.pct_top_10 = 0
    ∧ Metrics.zero.pct_top_1 = 0 ∧ Metrics.zero.pct_oa_gold = 0
    ∧ Metrics.zero.pct_oa_diamond = 0 ∧ Metrics.zero.pct_oa_green = 0
    ∧ Metrics.zero.pct_oa_hybrid = 0 ∧ Metrics.zero.pct_oa_bronze = 0
    ∧ Metrics.zero.pct_oa_closed = 0 :=
  ⟨process_works_in_chunks_empty chunks filter_func h, rfl, rfl, rfl, rfl, rfl, rfl, rfl,
    rfl, rfl, rfl, rfl, rfl⟩

theorem zero_document_record_is_all_zero_witness :
    ([[wGold, wClosed]] : List (List Work)).flatten.filter
        (fun w => w.publication_year == (1999 : ℤ)) = []
    ∧ PerformanceMetrics.process_works_in_chunks [[wGold, wClosed]]
        (fun w => w.publication_year == (1999 : ℤ)) = Metrics.zero :=
  ⟨rfl, (zero_document_record_is_all_zero [[wGold, wClosed]]
    (fun w => w.publication_year == (1999 : ℤ)) rfl).1⟩

theorem roundHalfEven_intCast (n : ℤ) : roundHalfEven (n : ℚ) = n := by
  unfold roundHalfEven
  simp only [Int.floor_intCast, sub_self]
  norm_num

theorem round_to_intCast (d : ℕ) (n : ℤ) : round_to d (n : ℚ) = n := by
  unfold round_to
  have hc : (n : ℚ) * 10 ^ d = ((n * 10 ^ d : ℤ) : ℚ) := by push_cast; ring
  rw [hc, roundHalfEven_intCast]
  push_cast
  have h10 : ((10 : ℚ) ^ d) ≠ 0 := by positivity
  field_simp

theorem round_to_natCast (d : ℕ) (n : ℕ) : round_to d (n : ℚ) = n := by
  have h := round_to_intCast d (n : ℤ)
  push_cast at h ⊢
  exact h

/-- C1 counterexample: on the two-record batch [wGold, wMissing], where one
FWCI cell is missing, the optimized parallel script path returns the mean
over the present values only (2), not the zero-coerced sum divided by the
total document count (1): that metrics-computation path does exclude missing
values from the denominator. -/
theorem optimized_mean_skips_missing_counterexample :
    (OptimizedScript.calculate_performance_metrics_from_df [wGold, wMissing]).fwci_avg
      ≠ round_to 2 ((([wGold, wMissing] : List Work).map
            (fun w => w.fwci.to_numeric.getD 0)).sum
          / (([wGold, wMissing] : List Work).length : ℚ)) := by
  have hl : (OptimizedScript.calculate_performance_metrics_from_df
      [wGold, wMissing]).fwci_avg = 2 := by
    simp only [OptimizedScript.calculate_performance_metrics_from_df, wGold, wMissing,
      Cell.to_numeric, List.filterMap, List.length_cons, List.length_nil]
    norm_num
    have h2 := round_to_natCast 2 2
    push_cast at h2
    exact h2
  have hr : round_to 2 ((([wGold, wMissing] : List Work).map
        (fun w => w.fwci.to_numeric.getD 0)).sum
      / (([wGold, wMissing] : List Work).length : ℚ)) = 1 := by
    simp only [wGold, wMissing, Cell.to_numeric, List.map_cons, List.map_nil,
      List.sum_cons, List.sum_nil, List.length_cons, List.length_nil, Option.getD]
    norm_num
    have h1 := round_to_natCast 2 1
    push_cast at h1
    exact h1
  rw [hl, hr]
  norm_num

/-- C1 amended: on every nonempty batch, the streaming accumulator path and
the pipeline transform path compute mean FWCI and mean normalized percentile
by coercing non-numeric or missing values to zero contributions and dividing
the sum by the total document count, while the optimized parallel script path
instead averages only the present numeric values (excluded from both numerator
and denominator, 0.0 when no value is present). -/
theorem mean_coercion_per_path (works : List Work) (h : works ≠ []) :
    ((PerformanceMetrics.MetricsAccumulator.reset.add_batch works).get_metrics).fwci_avg
        = round_to 2 ((works.map (fun w => w.fwci.to_numeric.getD 0)).sum
            / (works.length : ℚ))
    ∧ ((PerformanceMetrics.MetricsAccumulator.reset.add_batch works).get_metrics).avg_percentile
        = round_to 2 ((works.map
              (fun w => w.citation_normalized_percentile.to_numeric.getD 0)).sum
            / (works.length : ℚ))
    ∧ (TransformMetrics.calculate_performance_metrics_from_df works).fwci_avg
        = round_to 6 ((works.map (fun w => w.fwci.to_numeric.getD 0)).sum
            / (works.length : ℚ))
    ∧ (TransformMetrics.calculate_performance_metrics_from_df works).avg_percentile
        = round_to 6 ((works.map
              (fun w => w.citation_normalized_percentile.to_numeric.getD 0)).sum
            / (works.length : ℚ))
    ∧ (OptimizedScript.calculate_performance_metrics_from_df works).fwci_avg
        = (if (works.filterMap (fun w => w.fwci.to_numeric)).length = 0 then 0
           else round_to 2 ((works.filterMap (fun w => w.fwci.to_numeric)).sum
              / ((works.filterMap (fun w => w.fwci.to_numeric)).length : ℚ)))
    ∧ (OptimizedScript.calculate_performance_metrics_from_df works).avg_percentile
        = (if (works.filterMap (fun w => w.citation_normalized_percentile.to_numeric)).length = 0
            then 0
           else round_to 2
              ((works.filterMap (fun w => w.citation_normalized_percentile.to_numeric)).sum
                / ((works.filterMap
                    (fun w => w.citation_normalized_percentile.to_numeric)).length : ℚ))) := by
  have hl : works.length ≠ 0 := fun hc => h (List.length_eq_zero.mp hc)
  refine ⟨?_, ?_, ?_, ?_, ?_, ?_⟩
  · simp [PerformanceMetrics.MetricsAccumulator.get_metrics,
      PerformanceMetrics.MetricsAccumulator.add_batch,
      PerformanceMetrics.MetricsAccumulator.reset, hl]
  · simp [PerformanceMetrics.MetricsAccumulator.get_metrics,
      PerformanceMetrics.MetricsAccumulator.add_batch,
      PerformanceMetrics.MetricsAccumulator.reset, hl]
  · simp [TransformMetrics.calculate_performance_metrics_from_df, hl]
  · simp [TransformMetrics.calculate_performance_metrics_from_df, hl]
  · simp [OptimizedScript.calculate_performance_metrics_from_df, hl]
  · simp [OptimizedScript.calculate_performance_metrics_from_df, hl]

theorem mean_coercion_per_path_witness :
    ([wGold, wMissing] : List Work) ≠ []
    ∧ ((PerformanceMetrics.MetricsAccumulator.reset.add_batch [wGold, wMissing]).get_metrics).fwci_avg
        = round_to 2 ((([wGold, wMissing] : List Work).map
            (fun w => w.fwci.to_numeric.getD 0)).sum / (([wGold, wMissing] : List Work).length : ℚ)) :=
  ⟨by simp, (mean_coercion_per_path [wGold, wMissing] (by simp)).1⟩

/-- C3 counterexample: vs the claim that an entity with zero matching venues
or zero matching articles still yields zero-valued records, the worker returns
the all-None tuple for country AR, which has a venue but no matching articles,
and the chunked path returns None for a country absent from the venue table:
a missing row, not a zero row. -/
theorem empty_entity_yields_no_row :
    TransformMetrics.process_country_worker [] [jAR] 2020 2021 "AR" = none
    ∧ PerformanceMetrics.calculate_country_metrics_chunked [[wGold]] [] "AR" 2020 2021 = none :=
  ⟨rfl, rfl⟩

/-- C3 amended: an entity with zero matching articles yields no row at all
from process_country_worker, and an entity with zero venues yields none from
calculate_country_metrics_chunked (callers skip the None results, so such
entities produce missing rows, not zero-valued rows); an entity whose article
set is nonempty still produces one record per year of the requested range,
and each year with no matching documents is materialized as the all-zero
record. -/
theorem entity_row_presence (works : List Work) (journals : List Journal)
    (country_code : String) (start_year end_year : ℤ) (chunks : List (List Work)) :
    (works.filter (fun w =>
        ((journals.filter (fun j => j.country_code == country_code)).map
          (fun j => j.id)).contains w.journal_id) = [] →
      TransformMetrics.process_country_worker works journals start_year end_year country_code
        = none)
    ∧ (journals.filter (fun j => j.country_code == country_code) = [] →
        PerformanceMetrics.calculate_country_metrics_chunked chunks journals country_code
          start_year end_year = none)
    ∧ (works.filter (fun w =>
          ((journals.filter (fun j => j.country_code == country_code)).map
            (fun j => j.id)).contains w.journal_id) ≠ [] →
        ∃ annual period recent,
          TransformMetrics.process_country_worker works journals start_year end_year country_code
            = some (country_code, annual, period, recent)
          ∧ annual.length = (yearsIn start_year end_year).length
          ∧ ∀ row ∈ annual,
              (works.filter (fun w =>
                  ((journals.filter (fun j => j.country_code == country_code)).map
                    (fun j => j.id)).contains w.journal_id)).filter
                  (fun w => w.publication_year == row.year) = [] →
                row.metrics = Metrics.zero) := by
  refine ⟨?_, ?_, ?_⟩
  · intro h
    simp only [TransformMetrics.process_country_worker]
    rw [h]
    rfl
  · intro h
    simp only [PerformanceMetrics.calculate_country_metrics_chunked]
    rw [h]
    rfl
  · intro h
    have hlen : (works.filter (fun w =>
        ((journals.filter (fun j => j.country_code == country_code)).map
          (fun j => j.id)).contains w.journal_id)).length ≠ 0 :=
      fun hc => h (List.length_eq_zero.mp hc)
    simp only [TransformMetrics.process_country_worker]
    rw [if_neg hlen]
    refine ⟨_, _, _, rfl, ?_, ?_⟩
    · simp
    · intro row hrow hempty
      simp only [List.mem_map] at hrow
      obtain ⟨y, _, hy⟩ := hrow
      subst hy
      dsimp only at hempty ⊢
      rw [hempty]
      rfl

theorem entity_row_presence_witness :
    (([] : List Work).filter (fun w =>
        (([jAR].filter (fun j => j.country_code == "AR")).map
          (fun j => j.id)).contains w.journal_id) = []
      ∧ TransformMetrics.process_country_worker [] [jAR] 2020 2021 "AR" = none)
    ∧ (([wGold] : List Work).filter (fun w =>
        (([jAR].filter (fun j => j.country_code == "AR")).map
          (fun j => j.id)).contains w.journal_id) ≠ []
      ∧ ∃ annual period recent,
          TransformMetrics.process_country_worker [wGold] [jAR] 2020 2021 "AR"
            = some ("AR", annual, period, recent)
          ∧ annual.length = (yearsIn 2020 2021).length) := by
  refine ⟨⟨rfl, (entity_row_presence [] [jAR] "AR" 2020 2021 [[]]).1 rfl⟩, ⟨?_, ?_⟩⟩
  · decide
  · obtain ⟨annual, period, recent, heq, hlen, _⟩ :=
      (entity_row_presence [wGold] [jAR] "AR" 2020 2021 [[]]).2.2 (by decide)
    exact ⟨annual, period, recent, heq, hlen⟩

theorem chunkList_flatten (s : ℕ) (l : List α) : (chunkList s l).flatten = l := by
  rw [chunkList]
  by_cases h : s = 0 ∨ l.isEmpty
  · rw [dif_pos h]
    by_cases he : l.isEmpty
    · simp [he, List.isEmpty_iff.mp he]
    · simp [he]
  · rw [dif_neg h]
    rw [List.flatten_cons, chunkList_flatten s (l.drop s), List.take_append_drop]
termination_by l.length
decreasing_by
  simp only [not_or, List.isEmpty_iff] at h
  rcases h with ⟨h1, h2⟩
  have hlen : 0 < l.length := List.length_pos.mpr h2
  simp only [List.length_drop]
  omega

theorem mapM_error_of_mem {α β : Type} (worker : α → Except String β) (l : List α) (x : α)
    (e : String) (hx : x ∈ l) (he : worker x = Except.error e) :
    ∃ e2, l.mapM worker = Except.error e2 := by
  induction l with
  | nil => cases hx
  | cons a t ih =>
    rw [List.mapM_cons]
    rcases List.mem_cons.mp hx with h | h
    · subst h
      rw [he]
      exact ⟨e, rfl⟩
    · cases ha : worker a with
      | error e3 => exact ⟨e3, rfl⟩
      | ok b =>
        obtain ⟨e2, h2⟩ := ih h
        refine ⟨e2, ?_⟩
        show (t.mapM worker >>= fun bs => pure (b :: bs)) = Except.error e2
        rw [h2]
        rfl

theorem foldlM_chunks_error {α β : Type} (worker : α → Except String β)
    (chunks : List (List α)) (c : List α) (x : α) (e : String)
    (hc : c ∈ chunks) (hxc : x ∈ c) (he : worker x = Except.error e) :
    ∀ init : List β, ∃ e2,
      chunks.foldlM (fun all_results chunk => do
          let results ← chunk.mapM worker
          pure (all_results ++ results)) init = Except.error e2 := by
  induction chunks with
  | nil => cases hc
  | cons c0 cs ih =>
    intro init
    simp only [List.foldlM_cons]
    rcases List.mem_cons.mp hc with rfl | h
    · obtain ⟨e2, h2⟩ := mapM_error_of_mem worker _ x e hxc he
      refine ⟨e2, ?_⟩
      rw [h2]
      rfl
    · cases hm : c0.mapM worker with
      | error e3 => exact ⟨e3, rfl⟩
      | ok rs =>
        obtain ⟨e2, h2⟩ := ih h (init ++ rs)
        exact ⟨e2, h2⟩

theorem process_in_chunks_error_of_mem {α β : Type} (items : List α)
    (worker : α → Except String β) (chunk_size : ℕ) (x : α) (e : String)
    (hx : x ∈ items) (he : worker x = Except.error e) :
    ∃ e2, TransformMetrics.process_in_chunks items worker chunk_size = Except.error e2 := by
  have hx2 : x ∈ (chunkList chunk_size items).flatten := by
    rw [chunkList_flatten]; exact hx
  obtain ⟨c, hc, hxc⟩ := List.mem_flatten.mp hx2
  unfold TransformMetrics.process_in_chunks
  exact foldlM_chunks_error worker (chunkList chunk_size items) c x e hc hxc he []

/-- C7 counterexample: process_in_chunks, the chunked parallel runner of
pipeline/transform_metrics.py, has no exception handler: on two entities
where only the first raises, the whole call aborts with the propagated
exception; no result set is produced in which the remaining entity was still
computed and the failed one merely left out. -/
theorem process_in_chunks_abort :
    TransformMetrics.process_in_chunks [1, 2]
        (fun k => if k = 1 then Except.error "boom" else Except.ok k) 1
      = Except.error "boom" := by
  unfold TransformMetrics.process_in_chunks
  have hc : chunkList 1 [1, 2] = [[1], [2]] := by simp [chunkList]
  rw [hc]
  rfl

theorem country_loop_foldl (countries : List String)
    (compute : String → Except String
      (Option (List CountryAnnualRow × CountryPeriodRow × IndexingMetrics)))
    (acc : List (List CountryAnnualRow) × List CountryPeriodRow) :
    countries.foldl
      (fun acc country_code =>
        match compute country_code with
        | .error _ => acc
        | .ok none => acc
        | .ok (some (annual, period, _)) => (acc.1 ++ [annual], acc.2 ++ [period]))
      acc
    = (acc.1 ++ countries.filterMap (fun c => match compute c with
          | .ok (some (annual, _, _)) => some annual
          | _ => none),
       acc.2 ++ countries.filterMap (fun c => match compute c with
          | .ok (some (_, period, _)) => some period
          | _ => none)) := by
  induction countries generalizing acc with
  | nil => simp
  | cons c cs ih =>
    cases hc : compute c with
    | error e =>
      simp only [List.foldl_cons, List.filterMap_cons, hc]
      rw [ih]
    | ok o =>
      cases o with
      | none =>
        simp only [List.foldl_cons, List.filterMap_cons, hc]
        rw [ih]
      | some trip =>
        obtain ⟨annual, period, im⟩ := trip
        simp only [List.foldl_cons, List.filterMap_cons, hc]
        rw [ih]
        simp [List.append_assoc]

theorem country_metrics_main_loop_spec (countries : List String)
    (compute : String → Except String
      (Option (List CountryAnnualRow × CountryPeriodRow × IndexingMetrics))) :
    CountryScript.country_metrics_main_loop countries compute
      = (countries.filterMap (fun c => match compute c with
            | .ok (some (annual, _, _)) => some annual
            | _ => none),
         countries.filterMap (fun c => match compute c with
            | .ok (some (_, period, _)) => some period
            | _ => none)) := by
  unfold CountryScript.country_metrics_main_loop
  rw [country_loop_foldl]
  simp

/-- C7 amended: a raising entity during the chunked parallel run
(process_in_chunks) propagates and aborts the whole call, since that runner
has no handler; in the sequential country-metrics script the per-entity
try/except skips the failing entity, the loop keeps every other collected
result; and an entity absent from the cached key column (as a failed one is,
having never been written) is re-selected by get_items_to_process on the next
non-forced run. -/
theorem entity_failure_handling {α β : Type} (items : List α)
    (worker : α → Except String β) (chunk_size : ℕ) (x : α) (e : String)
    (hx : x ∈ items) (he : worker x = Except.error e)
    (countries : List String)
    (compute : String → Except String
      (Option (List CountryAnnualRow × CountryPeriodRow × IndexingMetrics))) :
    (∃ e2, TransformMetrics.process_in_chunks items worker chunk_size = Except.error e2)
    ∧ (CountryScript.country_metrics_main_loop countries compute).2
        = countries.filterMap (fun c => match compute c with
            | .ok (some (_, period, _)) => some period
            | _ => none)
    ∧ ∀ (all : List String) (rows : List CountryPeriodRow) (k : String),
        k ∈ all → k ∉ rows.map (fun r => r.country_code) →
        k ∈ (get_items_to_process all (some rows) (fun r => r.country_code) false).1 := by
  refine ⟨process_in_chunks_error_of_mem items worker chunk_size x e hx he, ?_, ?_⟩
  · rw [country_metrics_main_loop_spec]
  · intro all rows k h1 h2
    exact (get_items_to_process_mem all rows _ k).mpr ⟨h1, h2⟩

theorem entity_failure_handling_witness :
    (1 : ℕ) ∈ [1, 2]
    ∧ (fun k : ℕ => if k = 1 then (Except.error "boom" : Except String ℕ) else Except.ok k) 1
        = Except.error "boom"
    ∧ ∃ e2, TransformMetrics.process_in_chunks [1, 2]
        (fun k : ℕ => if k = 1 then (Except.error "boom" : Except String ℕ) else Except.ok k) 2
      = Except.error e2 :=
  ⟨by decide, rfl,
    (entity_failure_handling [1, 2]
      (fun k : ℕ => if k = 1 then (Except.error "boom" : Except String ℕ) else Except.ok k)
      2 1 "boom" (by decide) rfl [] (fun _ => Except.error "x")).1⟩

theorem mapM_ok {α β : Type} (w : α → β) (l : List α) :
    l.mapM (fun x => (Except.ok (w x) : Except String β)) = Except.ok (l.map w) := by
  induction l with
  | nil => rfl
  | cons a t ih =>
    rw [List.mapM_cons, ih]
    rfl

theorem process_in_chunks_ok {α β : Type} (items : List α) (w : α → β) (chunk_size : ℕ) :
    TransformMetrics.process_in_chunks items (fun x => (Except.ok (w x) : Except String β))
      chunk_size = Except.ok (items.map w) := by
  unfold TransformMetrics.process_in_chunks
  suffices hgen : ∀ (chunks : List (List α)) (init : List β),
      chunks.foldlM (fun all_results chunk => do
        let results ← chunk.mapM (fun x => (Except.ok (w x) : Except String β))
        pure (all_results ++ results)) init = Except.ok (init ++ chunks.flatten.map w) by
    rw [hgen (chunkList chunk_size items) [], chunkList_flatten]
    simp
  intro chunks
  induction chunks with
  | nil =>
    intro init
    show Except.ok init = Except.ok (init ++ ([] : List α).map w)
    simp
  | cons c cs ih =>
    intro init
    simp only [List.foldlM_cons]
    rw [mapM_ok]
    have h2 := ih (init ++ c.map w)
    rw [List.flatten_cons, List.map_append, ← List.append_assoc]
    exact h2

theorem unpackInto3_journalWorkerTuple
    (res : Option (String × List JournalAnnualRow × JournalPeriodRow × JournalPeriodRow)) :
    TransformMetrics.unpackInto3 (TransformMetrics.journalWorkerTuple res)
      = Except.error "ValueError: too many values to unpack (expected 3)" := by
  cases res with
  | none => rfl
  | some t =>
    obtain ⟨a, b, c, d⟩ := t
    rfl

theorem journalWorkerTuple_length
    (res : Option (String × List JournalAnnualRow × JournalPeriodRow × JournalPeriodRow)) :
    (TransformMetrics.journalWorkerTuple res).length = 4 := by
  cases res with
  | none => rfl
  | some t =>
    obtain ⟨a, b, c, d⟩ := t
    rfl

theorem collect_journal_results_cons_error (t : List TransformMetrics.PyVal)
    (rest : List (List TransformMetrics.PyVal)) (e : String)
    (ht : TransformMetrics.unpackInto3 t = Except.error e) :
    TransformMetrics.collect_journal_results (t :: rest) = Except.error e := by
  unfold TransformMetrics.collect_journal_results
  simp only [List.foldlM_cons]
  rw [ht]
  rfl

theorem journal_stage_error (works_df : List Work) (journals_df : List Journal)
    (start_year end_year : ℤ) (force : Bool) (disk : TransformMetrics.Caches)
    (h : (get_items_to_process ((journals_df.map (fun j => j.id)).dedup) disk.journal_period
        (fun r => r.journal_id) force).1 ≠ []) :
    TransformMetrics.journal_stage works_df journals_df start_year end_year force disk
      = (disk, Except.error "ValueError: too many values to unpack (expected 3)") := by
  have hlen : ¬((get_items_to_process ((journals_df.map (fun j => j.id)).dedup)
      disk.journal_period (fun r => r.journal_id) force).1.length = 0) :=
    fun hc => h (List.length_eq_zero.mp hc)
  obtain ⟨p0, prest, hpe⟩ := List.exists_cons_of_ne_nil h
  simp only [TransformMetrics.journal_stage]
  rw [if_neg hlen, process_in_chunks_ok, hpe, List.map_cons]
  dsimp only
  rw [collect_journal_results_cons_error _ _ _ (unpackInto3_journalWorkerTuple _)]

/-- C10: whenever the pending journal list is non-empty and the journal
workers return, every worker result is an arity-4 tuple (journal_id, annual,
period, period_recent), the result-collection loop of main unpacks each
result into exactly three targets and therefore raises ValueError, and
consequently that run writes no journal-level cache table: the journal stage
returns the disk state unchanged. -/
theorem journal_collection_loop_raises (works_df : List Work) (journals_df : List Journal)
    (start_year end_year : ℤ) (force : Bool) (disk : TransformMetrics.Caches)
    (h : (get_items_to_process ((journals_df.map (fun j => j.id)).dedup) disk.journal_period
        (fun r => r.journal_id) force).1 ≠ []) :
    (∀ jid, (TransformMetrics.journalWorkerTuple
        (TransformMetrics.process_journal_worker works_df journals_df start_year end_year
          jid)).length = 4)
    ∧ (TransformMetrics.journal_stage works_df journals_df start_year end_year force disk).2
        = Except.error "ValueError: too many values to unpack (expected 3)"
    ∧ (TransformMetrics.journal_stage works_df journals_df start_year end_year force disk).1
        = disk := by
  rw [journal_stage_error works_df journals_df start_year end_year force disk h]
  exact ⟨fun jid => journalWorkerTuple_length _, rfl, rfl⟩

theorem journal_collection_loop_raises_witness :
    (get_items_to_process (([jAR].map (fun j => j.id)).dedup)
        TransformMetrics.Caches.empty.journal_period (fun r => r.journal_id) false).1 ≠ []
    ∧ (TransformMetrics.journal_stage [wGold] [jAR] 2020 2020 false
        TransformMetrics.Caches.empty).2
      = Except.error "ValueError: too many values to unpack (expected 3)"
    ∧ (TransformMetrics.journal_stage [wGold] [jAR] 2020 2020 false
        TransformMetrics.Caches.empty).1 = TransformMetrics.Caches.empty := by
  have h : (get_items_to_process (([jAR].map (fun j => j.id)).dedup)
      TransformMetrics.Caches.empty.journal_period (fun r => r.journal_id) false).1 ≠ [] := by
    simp [get_items_to_process, TransformMetrics.Caches.empty, jAR]
  obtain ⟨_, h2, h3⟩ :=
    journal_collection_loop_raises [wGold] [jAR] 2020 2020 false
      TransformMetrics.Caches.empty h
  exact ⟨h, h2, h3⟩

theorem latam_stage_ok (works_df : List Work) (journals_df : List Journal)
    (start_year end_year : ℤ) (disk : TransformMetrics.Caches)
    (hj : journals_df.length ≠ 0) :
    ∃ d, TransformMetrics.latam_stage works_df journals_df start_year end_year disk
        = (d, Except.ok ())
      ∧ d.journal_period = disk.journal_period
      ∧ d.country_period = disk.country_period := by
  simp only [TransformMetrics.latam_stage]
  rw [if_neg hj]
  exact ⟨_, rfl, rfl, rfl⟩

theorem country_stage_ok (works_df : List Work) (journals_df : List Journal)
    (start_year end_year : ℤ) (force : Bool) (disk : TransformMetrics.Caches) :
    ∃ d n, TransformMetrics.country_stage works_df journals_df start_year end_year force disk
        = (d, Except.ok n)
      ∧ d.journal_period = disk.journal_period := by
  simp only [TransformMetrics.country_stage]
  by_cases h0 : ((get_items_to_process
      (((journals_df.map (fun j => j.country_code)).dedup).mergeSort
        (fun a b => !(decide (b < a))))
      disk.country_period (fun r => r.country_code) force).1.length = 0)
  · rw [if_pos h0]
    exact ⟨disk, 0, rfl, rfl⟩
  · rw [if_neg h0, process_in_chunks_ok]
    dsimp only
    rcases hcc : TransformMetrics.collect_country_results
        (List.map (TransformMetrics.process_country_worker works_df journals_df
            start_year end_year)
          (get_items_to_process
            (((journals_df.map (fun j => j.country_code)).dedup).mergeSort
              (fun a b => !(decide (b < a))))
            disk.country_period (fun r => r.country_code) force).1)
      with ⟨al, pl, rl⟩
    rw [hcc]
    dsimp only
    refine ⟨_, _, rfl, ?_⟩
    split <;> split <;> split <;> rfl

theorem main_run_journal_raise (works_df : List Work) (journals_df : List Journal)
    (force : Bool) (disk : TransformMetrics.Caches)
    (hw : works_df ≠ []) (hj : journals_df.length ≠ 0)
    (hp : (get_items_to_process ((journals_df.map (fun j => j.id)).dedup) disk.journal_period
        (fun r => r.journal_id) force).1 ≠ []) :
    (TransformMetrics.main_run works_df journals_df force disk).2
        = Except.error "ValueError: too many values to unpack (expected 3)"
    ∧ (TransformMetrics.main_run works_df journals_df force disk).1.journal_period
        = disk.journal_period := by
  have hmapne : works_df.map (fun w => w.publication_year) ≠ [] := by
    simpa using hw
  cases hmin : (works_df.map (fun w => w.publication_year)).min? with
  | none => exact absurd (List.min?_eq_none_iff.mp hmin) hmapne
  | some sy =>
  cases hmax : (works_df.map (fun w => w.publication_year)).max? with
  | none => exact absurd (List.max?_eq_none_iff.mp hmax) hmapne
  | some ey =>
  unfold TransformMetrics.main_run
  rw [hmin, hmax]
  dsimp only
  obtain ⟨d1, hd1, hd1jp, _⟩ := latam_stage_ok works_df journals_df sy ey disk hj
  rw [hd1]
  dsimp only
  obtain ⟨d2, n2, hd2, hd2jp⟩ := country_stage_ok works_df journals_df sy ey force d1
  rw [hd2]
  dsimp only
  have hp2 : (get_items_to_process ((journals_df.map (fun j => j.id)).dedup) d2.journal_period
      (fun r => r.journal_id) force).1 ≠ [] := by
    rw [hd2jp, hd1jp]
    exact hp
  rw [journal_stage_error works_df journals_df sy ey force d2 hp2]
  dsimp only
  exact ⟨rfl, by rw [hd2jp, hd1jp]⟩

/-- C6: the idempotent-caching property fails on the code, evaluated at a
concrete failing input (one journal with one work, fresh caches, no force):
the first run aborts in the journal result-collection loop with ValueError
and never writes a journal-level cache, so the second run re-selects that
journal (one pending journal, not zero) and aborts the same way; the pipeline
never reaches a completed second run reporting zero newly computed entities
at each incremental level. -/
theorem journal_unpack_breaks_idempotent_caching :
    (TransformMetrics.main_run [wGold] [jAR] false TransformMetrics.Caches.empty).2
      = Except.error "ValueError: too many values to unpack (expected 3)"
    ∧ (TransformMetrics.main_run [wGold] [jAR] false
        TransformMetrics.Caches.empty).1.journal_period = none
    ∧ (get_items_to_process (([jAR].map (fun j => j.id)).dedup)
        (TransformMetrics.main_run [wGold] [jAR] false
          TransformMetrics.Caches.empty).1.journal_period
        (fun r => r.journal_id) false).1.length = 1
    ∧ (TransformMetrics.main_run [wGold] [jAR] false
        (TransformMetrics.main_run [wGold] [jAR] false TransformMetrics.Caches.empty).1).2
      = Except.error "ValueError: too many values to unpack (expected 3)" := by
  have h1 := main_run_journal_raise [wGold] [jAR] false TransformMetrics.Caches.empty
    (by decide) (by decide) (by decide)
  have hjp1 : (TransformMetrics.main_run [wGold] [jAR] false
      TransformMetrics.Caches.empty).1.journal_period = none := h1.2
  have hp2 : (get_items_to_process (([jAR].map (fun j => j.id)).dedup)
      (TransformMetrics.main_run [wGold] [jAR] false
        TransformMetrics.Caches.empty).1.journal_period
      (fun r => r.journal_id) false).1 ≠ [] := by
    rw [hjp1]
    decide
  have h2 := main_run_journal_raise [wGold] [jAR] false
    (TransformMetrics.main_run [wGold] [jAR] false TransformMetrics.Caches.empty).1
    (by decide) (by decide) hp2
  refine ⟨h1.1, hjp1, ?_, h2.1⟩
  rw [hjp1]
  decide

namespace Trajectories

theorem rollingCenteredMean_length (window_size : ℕ) (weight : ℕ → ℚ) (xs : List ℚ) :
    (rollingCenteredMean window_size weight xs).length = xs.length := by
  simp [rollingCenteredMean]

theorem map_id_of_enum_map (rows : List PrepRow) (f : ℕ × PrepRow → PrepRow)
    (hf : ∀ p, (f p).id = p.2.id) :
    (rows.enum.map f).map (fun r => r.id) = rows.map (fun r => r.id) := by
  rw [List.map_map]
  have h1 : ((fun r : PrepRow => r.id) ∘ f) = fun p : ℕ × PrepRow => p.2.id := funext hf
  rw [h1]
  have h2 : (fun p : ℕ × PrepRow => p.2.id) = (fun r : PrepRow => r.id) ∘ Prod.snd := rfl
  rw [h2, ← List.map_map, List.enum_map_snd]

theorem smoothGroup_map_id (window_size : ℕ) (weight : ℕ → ℚ) (rows : List PrepRow) :
    (smoothGroup window_size weight rows).map (fun r => r.id) = rows.map (fun r => r.id) := by
  simp only [smoothGroup]
  exact map_id_of_enum_map rows _ (fun p => rfl)

theorem countP_smoothGroup (window_size : ℕ) (weight : ℕ → ℚ) (rows : List PrepRow)
    (g : String) :
    (smoothGroup window_size weight rows).countP (fun r => r.id == g)
      = rows.countP (fun r => r.id == g) := by
  have h1 : ∀ l : List PrepRow, l.countP (fun r => r.id == g)
      = (l.map (fun r => r.id)).countP (fun s => s == g) := by
    intro l
    rw [List.countP_map]
    rfl
  rw [h1, h1, smoothGroup_map_id]

theorem sum_map_single (φ : String → ℕ) (ids : List String) (hnd : ids.Nodup) (g : String)
    (h0 : ∀ x, x ≠ g → φ x = 0) :
    (ids.map φ).sum = if g ∈ ids then φ g else 0 := by
  induction ids with
  | nil => simp
  | cons a t ih =>
    rw [List.nodup_cons] at hnd
    obtain ⟨hat, hts⟩ := hnd
    rw [List.map_cons, List.sum_cons, ih hts]
    by_cases hag : a = g
    · subst hag
      rw [if_pos (List.mem_cons_self a t), if_neg hat]
      omega
    · rw [h0 a hag]
      by_cases hgt : g ∈ t
      · rw [if_pos hgt, if_pos (List.mem_cons_of_mem a hgt)]
        omega
      · rw [if_neg hgt, if_neg (fun hc => by
          rcases List.mem_cons.mp hc with h | h
          · exact hag h.symm
          · exact hgt h)]

theorem countP_apply_smoothing (df : List PrepRow) (window_size : ℕ) (weight : ℕ → ℚ)
    (g : String) :
    (apply_smoothing df window_size weight).countP (fun r => r.id == g)
      = df.countP (fun r => r.id == g) := by
  unfold apply_smoothing
  by_cases hemp : df.isEmpty
  · rw [if_pos hemp]
  · rw [if_neg hemp]
    have hcount : (df.mergeSort (fun a b =>
          decide (a.id < b.id) || (a.id == b.id && decide (a.year ≤ b.year)))).countP
        (fun r => r.id == g) = df.countP (fun r => r.id == g) :=
      (List.mergeSort_perm df _).countP_eq _
    set sorted := df.mergeSort (fun a b =>
      decide (a.id < b.id) || (a.id == b.id && decide (a.year ≤ b.year))) with hsorted
    rw [List.countP_flatten, List.map_map]
    have hφ1 : ∀ g2, g2 ≠ g →
        (smoothGroup window_size weight (sorted.filter (fun r => r.id == g2))).countP
          (fun r => r.id == g) = 0 := by
      intro g2 hne
      rw [countP_smoothGroup, List.countP_filter, List.countP_eq_zero]
      intro r _
      simp only [Bool.and_eq_true, beq_iff_eq]
      rintro ⟨h1, h2⟩
      exact hne (h2 ▸ h1 ▸ rfl)
    have hφg : (smoothGroup window_size weight (sorted.filter (fun r => r.id == g))).countP
        (fun r => r.id == g) = sorted.countP (fun r => r.id == g) := by
      rw [countP_smoothGroup, List.countP_filter]
      apply List.countP_congr
      intro r _
      simp [Bool.and_self]
    rw [show ((List.countP (fun r => r.id == g)) ∘ fun g2 =>
        smoothGroup window_size weight (sorted.filter (fun r => r.id == g2)))
      = fun g2 => (smoothGroup window_size weight
          (sorted.filter (fun r => r.id == g2))).countP (fun r => r.id == g) from rfl]
    rw [sum_map_single _ _ (List.nodup_dedup _) g hφ1]
    by_cases hg : g ∈ (sorted.map (fun r => r.id)).dedup
    · rw [if_pos hg, hφg, hcount]
    · rw [if_neg hg]
      have hz : sorted.countP (fun r => r.id == g) = 0 := by
        rw [List.countP_eq_zero]
        intro r hr
        simp only [beq_iff_eq]
        intro hid
        exact hg (List.mem_dedup.mpr (List.mem_map.mpr ⟨r, hr, hid⟩))
      rw [← hcount, hz]

end Trajectories

/-- C8: for every entity with N rows in the annual input table, the smoothing
step outputs exactly N rows for that entity, for each of the two retained
window sizes 3 and 5 and for every window weight (exponential branch or
uniform fallback); the rolling transform emits one value per input position,
and at every position the truncated window still contains the position
itself, so edge years shrink the window to at least one observation instead
of being dropped. -/
theorem smoothing_row_completeness (df : List Trajectories.PrepRow) (weight : ℕ → ℚ)
    (g : String) :
    ((Trajectories.apply_smoothing df 3 weight).countP (fun r => r.id == g)
        = df.countP (fun r => r.id == g))
    ∧ ((Trajectories.apply_smoothing df 5 weight).countP (fun r => r.id == g)
        = df.countP (fun r => r.id == g))
    ∧ (∀ xs : List ℚ, (Trajectories.rollingCenteredMean 3 weight xs).length = xs.length
        ∧ (Trajectories.rollingCenteredMean 5 weight xs).length = xs.length)
    ∧ (∀ n i : ℕ, i < n → i ∈ Trajectories.windowIdxs 3 n i
        ∧ i ∈ Trajectories.windowIdxs 5 n i) := by
  refine ⟨Trajectories.countP_apply_smoothing df 3 weight g,
    Trajectories.countP_apply_smoothing df 5 weight g,
    fun xs => ⟨Trajectories.rollingCenteredMean_length 3 weight xs,
      Trajectories.rollingCenteredMean_length 5 weight xs⟩, ?_⟩
  intro n i hin
  constructor <;>
    · simp only [Trajectories.windowIdxs, List.mem_filter, List.mem_range,
        Bool.and_eq_true, decide_eq_true_eq]
      omega

theorem smoothing_row_completeness_witness :
    ((Trajectories.apply_smoothing [sampleCountryRow 0] 3 (fun _ => 1)).countP
        (fun r => r.id == "C0")
      = ([sampleCountryRow 0] : List Trajectories.PrepRow).countP (fun r => r.id == "C0"))
    ∧ (0 < 1 ∧ 0 ∈ Trajectories.windowIdxs 3 1 0 ∧ 0 ∈ Trajectories.windowIdxs 5 1 0) :=
  ⟨(smoothing_row_completeness [sampleCountryRow 0] (fun _ => 1) "C0").1,
    by decide,
    ((smoothing_row_completeness [sampleCountryRow 0] (fun _ => 1) "C0").2.2.2 1 0
      (by decide)).1,
    ((smoothing_row_completeness [sampleCountryRow 0] (fun _ => 1) "C0").2.2.2 1 0
      (by decide)).2⟩

/-- C9 counterexample: a global-map context with exactly 10 points, which is
not fewer than 10, still produces no projection: the source condition for the
global countries map is strictly greater than 10, so this boundary context is
skipped even though the claim says contexts with enough (at least 10) points
are projected. -/
theorem global_map_ten_points_skipped :
    Trajectories.global_countries_map valid10 = none
    ∧ (Trajectories.countries_data valid10).length = 10 := by
  constructor
  · rfl
  · rfl

/-- C9 amended: every map context with fewer than 10 points is skipped,
producing no TrajectoryPoints (embedded as none, not an exception); a
per-country local map is projected exactly when it has at least 10 points,
while the global countries map requires strictly more than 10 points; every
projected context uses a neighbor count of at most one less than its number
of points (the local raise-to-2 never fires at such sizes). -/
theorem projection_skip_thresholds (valid_data : List Trajectories.PrepRow) (country : String) :
    ((Trajectories.countries_data valid_data).length < 10 →
      Trajectories.global_countries_map valid_data = none)
    ∧ ((Trajectories.countries_data valid_data).length ≤ 10 →
      Trajectories.global_countries_map valid_data = none)
    ∧ (10 < (Trajectories.countries_data valid_data).length →
        Trajectories.global_countries_map valid_data
          = some (Trajectories.countries_data valid_data,
              min 30 ((Trajectories.countries_data valid_data).length - 1))
        ∧ min 30 ((Trajectories.countries_data valid_data).length - 1)
            ≤ (Trajectories.countries_data valid_data).length - 1)
    ∧ ((valid_data.filter (fun r => r.country_code == country)).length < 10 →
        Trajectories.country_local_map valid_data country = none)
    ∧ (10 ≤ (valid_data.filter (fun r => r.country_code == country)).length →
        Trajectories.country_local_map valid_data country
          = some (valid_data.filter (fun r => r.country_code == country),
              min 15 ((valid_data.filter (fun r => r.country_code == country)).length - 1))
        ∧ 2 ≤ min 15 ((valid_data.filter (fun r => r.country_code == country)).length - 1)
        ∧ min 15 ((valid_data.filter (fun r => r.country_code == country)).length - 1)
            ≤ (valid_data.filter (fun r => r.country_code == country)).length - 1) := by
  refine ⟨?_, ?_, ?_, ?_, ?_⟩
  · intro h
    simp only [Trajectories.global_countries_map]
    rw [if_neg (by omega)]
  · intro h
    simp only [Trajectories.global_countries_map]
    rw [if_neg (by omega)]
  · intro h
    simp only [Trajectories.global_countries_map]
    rw [if_pos h]
    exact ⟨rfl, Nat.min_le_right _ _⟩
  · intro h
    simp only [Trajectories.country_local_map]
    rw [if_pos h]
  · intro h
    simp only [Trajectories.country_local_map]
    rw [if_neg (by omega)]
    have h2 : ¬(min 15 ((valid_data.filter (fun r => r.country_code == country)).length - 1) < 2) := by
      omega
    rw [if_neg h2]
    exact ⟨rfl, by omega, Nat.min_le_right _ _⟩

theorem projection_skip_thresholds_witness :
    ((Trajectories.countries_data valid10).length ≤ 10
      ∧ Trajectories.global_countries_map valid10 = none)
    ∧ (10 ≤ (validBR11.filter (fun r => r.country_code == "BR")).length
      ∧ Trajectories.country_local_map validBR11 "BR"
          = some (validBR11.filter (fun r => r.country_code == "BR"),
              min 15 ((validBR11.filter (fun r => r.country_code == "BR")).length - 1))) :=
  ⟨⟨by decide, (projection_skip_thresholds valid10 "X").2.1 (by decide)⟩,
   ⟨by decide, ((projection_skip_thresholds validBR11 "BR").2.2.2.2 (by decide)).1⟩⟩
